import Mathlib

/-!
Shallow embedding of the FEMS telegraf input plugin
(src/plugins/inputs/fems/fems.go) and proofs about its behaviour.

Modelling conventions:
- JSON values are the inductive `JVal`; Go `interface{}` values decoded
  from JSON are `JVal` as well (Go `nil` is `JVal.null`).
- A Go `map[string]any` is a `List (String × JVal)` without duplicate keys
  in insertion order; the map order of Go is immaterial to every property
  proved here.
- `json.Unmarshal` into the plugin's struct types is embedded by the
  `unmarshal*` functions below, following Go's rules: a JSON `null`
  leaves a non-pointer field unchanged and sets a pointer or map to nil,
  unknown object keys are ignored, a type mismatch is an error, a
  non-object (and non-null) document is an error for a struct target,
  and object keys match struct field names case-insensitively
  (`strings.EqualFold`; the plugin's field names are ASCII and no two
  fold equal, so the prefer-exact-match rule is immaterial).
- `uuid.New().String()` is modelled by a caller-supplied fresh id.
- Side effects (log calls, `acc.AddFields`, `conn.Close`, `time.Sleep`)
  are recorded in an effect trace `List Effect`; the websocket is an
  environment (`NetEnv`, lists of read results) consumed by the
  functions.
-/

set_option autoImplicit false

namespace Fems

/-- A JSON value; also the Go value obtained by decoding JSON into
`interface{}` (numbers are modelled by integers). -/
inductive JVal where
  | null
  | num (n : Int)
  | str (s : String)
  | bool (b : Bool)
  | arr (elems : List JVal)
  | obj (fields : List (String × JVal))

/-- Go test `value == nil` on an `interface{}` decoded from JSON. -/
def JVal.isNull : JVal → Bool
  | .null => true
  | _ => false

/-- A raw websocket text message: either valid JSON (with its raw text)
or text that is not valid JSON. -/
inductive InMsg where
  | valid (j : JVal) (raw : String)
  | invalid (raw : String)

/-- The raw text of a message, as logged by the plugin. -/
def InMsg.raw : InMsg → String
  | .valid _ r => r
  | .invalid r => r

/-- Embeds the Go struct `ErrorMsg` (fields `code`, `message`). -/
structure ErrorMsg where
  Code : Int
  Message : String

/-- Embeds the Go struct `RpcResponse` (fields `id`, `error`); the
pointer `*ErrorMsg` is an `Option`. -/
structure RpcResponse where
  Id : String
  Error : Option ErrorMsg

/-- Embeds the Go struct `DataUpdateEventPayload` (field `params`,
a `map[string]any`). -/
structure DataUpdateEventPayload where
  Params : List (String × JVal)

/-- Embeds the Go struct `DataUpdateEventParams`. -/
structure DataUpdateEventParams where
  Method : String
  Payload : DataUpdateEventPayload

/-- Embeds the Go struct `DataUpdateEvent`. -/
structure DataUpdateEvent where
  Method : String
  EdgRpcParams : DataUpdateEventParams

/-- Go `strings.EqualFold` as used by `encoding/json` to match object
keys to struct field names: a case-insensitive comparison (the plugin's
field names are all ASCII, and no two of them fold equal, so Go's
prefer-exact-match rule reduces to this test). -/
def eqFold (a b : String) : Bool :=
  a.data.map Char.toLower == b.data.map Char.toLower

/-- Unmarshal a JSON value into a Go `string` field with current value
`cur`: null leaves it unchanged, a string replaces it, anything else is
a type error. -/
def unmStr (j : JVal) (cur : String) : Except Unit String :=
  match j with
  | .null => .ok cur
  | .str s => .ok s
  | _ => .error ()

/-- Unmarshal a JSON value into a Go `int` field with current value
`cur`. -/
def unmInt (j : JVal) (cur : Int) : Except Unit Int :=
  match j with
  | .null => .ok cur
  | .num n => .ok n
  | _ => .error ()

/-- Insert into an association list modelling a Go map: replace an
existing key's value in place, append a fresh key. -/
def insertKV : List (String × JVal) → String → JVal → List (String × JVal)
  | [], k, v => [(k, v)]
  | (k', v') :: rest, k, v =>
    if k' = k then (k, v) :: rest else (k', v') :: insertKV rest k v

/-- Unmarshal a JSON value into a Go `map[string]any` field with current
value `cur`: null sets the map to nil, an object merges its pairs in
order, anything else is a type error. -/
def unmAnyMap (j : JVal) (cur : List (String × JVal)) :
    Except Unit (List (String × JVal)) :=
  match j with
  | .null => .ok []
  | .obj kvs => .ok (kvs.foldl (fun m kv => insertKV m kv.1 kv.2) cur)
  | _ => .error ()

/-- Unmarshal the pairs of a JSON object into an `ErrorMsg`. -/
def unmErrorMsgFields : List (String × JVal) → ErrorMsg → Except Unit ErrorMsg
  | [], cur => .ok cur
  | (k, v) :: rest, cur =>
    if eqFold k "code" then
      match unmInt v cur.Code with
      | .error e => .error e
      | .ok n => unmErrorMsgFields rest { cur with Code := n }
    else if eqFold k "message" then
      match unmStr v cur.Message with
      | .error e => .error e
      | .ok s => unmErrorMsgFields rest { cur with Message := s }
    else unmErrorMsgFields rest cur

/-- Unmarshal a JSON value into the pointer field `*ErrorMsg`: null sets
the pointer to nil, an object allocates (or reuses) the pointee and
decodes into it, anything else is a type error. -/
def unmErrorPtr (j : JVal) (cur : Option ErrorMsg) :
    Except Unit (Option ErrorMsg) :=
  match j with
  | .null => .ok none
  | .obj kvs => (unmErrorMsgFields kvs (cur.getD ⟨0, ""⟩)).map some
  | _ => .error ()

/-- Unmarshal the pairs of a JSON object into an `RpcResponse`. -/
def unmRpcResponseFields :
    List (String × JVal) → RpcResponse → Except Unit RpcResponse
  | [], cur => .ok cur
  | (k, v) :: rest, cur =>
    if eqFold k "id" then
      match unmStr v cur.Id with
      | .error e => .error e
      | .ok s => unmRpcResponseFields rest { cur with Id := s }
    else if eqFold k "error" then
      match unmErrorPtr v cur.Error with
      | .error e => .error e
      | .ok o => unmRpcResponseFields rest { cur with Error := o }
    else unmRpcResponseFields rest cur

/-- Embeds `json.Unmarshal(msg, &resp)` for `resp : RpcResponse`. -/
def unmarshalRpcResponse (j : JVal) : Except Unit RpcResponse :=
  match j with
  | .null => .ok ⟨"", none⟩
  | .obj kvs => unmRpcResponseFields kvs ⟨"", none⟩
  | _ => .error ()

/-- Unmarshal the pairs of a JSON object into a `DataUpdateEventPayload`. -/
def unmPayloadFields :
    List (String × JVal) → DataUpdateEventPayload →
    Except Unit DataUpdateEventPayload
  | [], cur => .ok cur
  | (k, v) :: rest, cur =>
    if eqFold k "params" then
      match unmAnyMap v cur.Params with
      | .error e => .error e
      | .ok m => unmPayloadFields rest { cur with Params := m }
    else unmPayloadFields rest cur

/-- Unmarshal a JSON value into the struct field `DataUpdateEventPayload`. -/
def unmPayload (j : JVal) (cur : DataUpdateEventPayload) :
    Except Unit DataUpdateEventPayload :=
  match j with
  | .null => .ok cur
  | .obj kvs => unmPayloadFields kvs cur
  | _ => .error ()

/-- Unmarshal the pairs of a JSON object into a `DataUpdateEventParams`. -/
def unmEventParamsFields :
    List (String × JVal) → DataUpdateEventParams →
    Except Unit DataUpdateEventParams
  | [], cur => .ok cur
  | (k, v) :: rest, cur =>
    if eqFold k "method" then
      match unmStr v cur.Method with
      | .error e => .error e
      | .ok s => unmEventParamsFields rest { cur with Method := s }
    else if eqFold k "payload" then
      match unmPayload v cur.Payload with
      | .error e => .error e
      | .ok p => unmEventParamsFields rest { cur with Payload := p }
    else unmEventParamsFields rest cur

/-- Unmarshal a JSON value into the struct field `DataUpdateEventParams`. -/
def unmEventParams (j : JVal) (cur : DataUpdateEventParams) :
    Except Unit DataUpdateEventParams :=
  match j with
  | .null => .ok cur
  | .obj kvs => unmEventParamsFields kvs cur
  | _ => .error ()

/-- Unmarshal the pairs of a JSON object into a `DataUpdateEvent`. -/
def unmEventFields :
    List (String × JVal) → DataUpdateEvent → Except Unit DataUpdateEvent
  | [], cur => .ok cur
  | (k, v) :: rest, cur =>
    if eqFold k "method" then
      match unmStr v cur.Method with
      | .error e => .error e
      | .ok s => unmEventFields rest { cur with Method := s }
    else if eqFold k "params" then
      match unmEventParams v cur.EdgRpcParams with
      | .error e => .error e
      | .ok p => unmEventFields rest { cur with EdgRpcParams := p }
    else unmEventFields rest cur

/-- The zero value of `DataUpdateEvent` (Go zero struct, nil map). -/
def zeroEvent : DataUpdateEvent :=
  { Method := "", EdgRpcParams := { Method := "", Payload := { Params := [] } } }

/-- Embeds `json.Unmarshal(msg, &dataEv)` for `dataEv : DataUpdateEvent`. -/
def unmarshalDataUpdateEvent (j : JVal) : Except Unit DataUpdateEvent :=
  match j with
  | .null => .ok zeroEvent
  | .obj kvs => unmEventFields kvs zeroEvent
  | _ => .error ()

/-- Unmarshal a raw message into an `RpcResponse`; text that is not
valid JSON is an error. -/
def unmarshalRpcResponseMsg : InMsg → Except Unit RpcResponse
  | .valid j _ => unmarshalRpcResponse j
  | .invalid _ => .error ()

/-- Unmarshal a raw message into a `DataUpdateEvent`; text that is not
valid JSON is an error. -/
def unmarshalEventMsg : InMsg → Except Unit DataUpdateEvent
  | .valid j _ => unmarshalDataUpdateEvent j
  | .invalid _ => .error ()

mutual
/-- Embeds the Go struct `RpcReq` (fields `jsonrpc`, `method`, `id`,
`params : any`); the concrete parameter payloads used by the plugin are
the cases of `RpcParams`. -/
inductive RpcReq where
  | mk (Jsonrpc : String) (Method : String) (Id : String) (Params : RpcParams)

/-- The `any`-typed `Params` payloads the plugin actually stores in an
`RpcReq`. -/
inductive RpcParams where
  | null
  | passwordParams (password : String)
  | subscribeParams (count : Int) (channels : List String)
  | edgeRpcParams (edgeId : String) (payload : RpcReq)
end

/-- The `Jsonrpc` field of an `RpcReq`. -/
def RpcReq.Jsonrpc : RpcReq → String
  | .mk j _ _ _ => j

/-- The `Method` field of an `RpcReq`. -/
def RpcReq.Method : RpcReq → String
  | .mk _ m _ _ => m

/-- The `Id` field of an `RpcReq`. -/
def RpcReq.Id : RpcReq → String
  | .mk _ _ i _ => i

/-- The `Params` field of an `RpcReq`. -/
def RpcReq.Params : RpcReq → RpcParams
  | .mk _ _ _ _p => _p

/-- Go field assignment `r.Params = ...`. -/
def RpcReq.setParams : RpcReq → RpcParams → RpcReq
  | .mk j m i _, q => .mk j m i q

/-- Embeds `getRequest`; `uuid.New().String()` is modelled by the
caller-supplied fresh id. -/
def getRequest (method : String) (freshId : String) : RpcReq :=
  .mk "2.0" method freshId .null

/-- Embeds `get_subscribe_channels_request`: the inner request for
`subscribeChannels` wrapped in an outer `edgeRpc` request. -/
def get_subscribe_channels_request (channels : List String)
    (edgeFreshId subFreshId : String) : RpcReq :=
  let edgeRpc := getRequest "edgeRpc" edgeFreshId
  let subsRpc :=
    (getRequest "subscribeChannels" subFreshId).setParams
      (.subscribeParams 0 channels)
  edgeRpc.setParams (.edgeRpcParams "0" subsRpc)

/-- One log call of the plugin, identified by its call site together
with the data the claims care about. -/
inductive LogEvent where
  | connectingInfo (url : String)
  | dialError
  | reconnectWarn (seconds : Nat)
  | connClosedInfo
  | loginSendTrace
  | loginWriteError
  | loginReadInfo
  | loginParseInfo
  | loginParseData (raw : String)
  | loginIdError (resp : RpcResponse)
  | loginGotTrace
  | loginFailedError (code : Int) (message : String)
  | loginSucceededInfo
  | subWriteError
  | subReadInfo
  | subParseInfo
  | subParseData (raw : String)
  | subIdError (req : RpcReq) (resp : RpcResponse)
  | subFailedError (code : Int) (message : String)
  | readErrorInfo
  | msgParseInfo
  | msgParseData (raw : String)
  | rxTrace (data : List (String × JVal))
  | noChannelWarn (channel : String)
  | noMeasurementWarn (raw : String)

/-- An observable side effect of the plugin. -/
inductive Effect where
  | log (e : LogEvent)
  | addFields (measurement : String) (fields : List (String × JVal))
  | closeConn
  | sleep (seconds : Nat)

/-- Environment of one request/response exchange: whether `WriteJSON`
fails, and the result of the following `ReadMessage` (`none` is a read
error). -/
structure NetEnv where
  sendErr : Bool
  readResult : Option InMsg

/-- Embeds `try_login`: one authentication exchange. Returns the Go
return value and the trace of effects. -/
def try_login (password : String) (freshId : String) (env : NetEnv) :
    Bool × List Effect :=
  let loginReq :=
    (getRequest "authenticateWithPassword" freshId).setParams
      (.passwordParams password)
  let pre := [Effect.log .loginSendTrace]
  if env.sendErr then (false, pre ++ [.log .loginWriteError])
  else
    match env.readResult with
    | none => (false, pre ++ [.log .loginReadInfo])
    | some msg =>
      match unmarshalRpcResponseMsg msg with
      | .error _ =>
        (false, pre ++ [.log .loginParseInfo, .log (.loginParseData msg.raw)])
      | .ok resp =>
        if resp.Id ≠ loginReq.Id then
          (false, pre ++ [.log (.loginIdError resp)])
        else
          match resp.Error with
          | some e =>
            (false, pre ++ [.log .loginGotTrace,
                            .log (.loginFailedError e.Code e.Message)])
          | none =>
            (true, pre ++ [.log .loginGotTrace, .log .loginSucceededInfo])

/-- Embeds `try_subscribe_channels`: one subscription exchange using the
nested `edgeRpc` envelope; the response id is compared with the outer
request's id. -/
def try_subscribe_channels (channels : List String)
    (edgeFreshId subFreshId : String) (env : NetEnv) : Bool × List Effect :=
  let req := get_subscribe_channels_request channels edgeFreshId subFreshId
  if env.sendErr then (false, [.log .subWriteError])
  else
    match env.readResult with
    | none => (false, [.log .subReadInfo])
    | some msg =>
      match unmarshalRpcResponseMsg msg with
      | .error _ =>
        (false, [.log .subParseInfo, .log (.subParseData msg.raw)])
      | .ok resp =>
        if resp.Id ≠ req.Id then
          (false, [.log (.subIdError req resp)])
        else
          match resp.Error with
          | some e =>
            (false, [.log (.subFailedError e.Code e.Message)])
          | none => (true, [])

/-- Go `data.filter` of the plugin's null-removal loop: the entries
whose value is `nil`, in order (each produces one warning and is
deleted). -/
def nullEntries (data : List (String × JVal)) : List (String × JVal) :=
  data.filter (fun kv => kv.2.isNull)

/-- The channel mapping after the plugin's null-removal loop: every
entry whose value is `nil` deleted, the rest unchanged and in order. -/
def removeNulls (data : List (String × JVal)) : List (String × JVal) :=
  data.filter (fun kv => !kv.2.isNull)

/-- The body of `try_handel_msgs_forever` for one successfully read
message: decode, log-and-skip on parse error, warn and delete null
channels, warn and drop an empty batch, otherwise `AddFields`. -/
def handleMsg (m : InMsg) : List Effect :=
  match unmarshalEventMsg m with
  | .error _ => [.log .msgParseInfo, .log (.msgParseData m.raw)]
  | .ok ev =>
    let data := ev.EdgRpcParams.Payload.Params
    let warns :=
      (nullEntries data).map (fun kv => Effect.log (.noChannelWarn kv.1))
    let kept := removeNulls data
    Effect.log (.rxTrace data) :: warns ++
      (if kept.length = 0 then [Effect.log (.noMeasurementWarn m.raw)]
       else [Effect.addFields "fems" kept])

/-- Embeds `try_handel_msgs_forever` over a finite list of read results
(`none` is a `ReadMessage` error, which ends the loop; an exhausted list
models the connection staying silent from then on). `stopping` is the
value of `is_stopping` observed when a read error occurs. -/
def try_handel_msgs_forever (stopping : Bool) :
    List (Option InMsg) → List Effect
  | [] => []
  | none :: _ => if stopping then [] else [.log .readErrorInfo]
  | some m :: rest => handleMsg m ++ try_handel_msgs_forever stopping rest

/-- Embeds `cleanup`; the connection handle is `true` when `f.conn` is
non-nil. Returns the new handle and the effects. -/
def cleanup (conn : Bool) : Bool × List Effect :=
  if conn then (false, [.closeConn, .log .connClosedInfo])
  else (conn, [])

/-- Environment of one iteration of the `connect` loop: the value of
`is_stopping` observed at the top of the iteration, whether the dial
succeeds, the fresh ids and network environments of the two exchanges,
and the read results of the streaming loop. -/
structure AttemptEnv where
  stopping : Bool
  dialOk : Bool
  loginId : String
  loginNet : NetEnv
  edgeId : String
  subId : String
  subNet : NetEnv
  streamStopping : Bool
  reads : List (Option InMsg)

/-- The body of one connection attempt of `connect` (dial, login,
subscribe, stream), with `next` the continuation of the loop carrying
the connection handle. -/
def attemptStep (password : String) (channels : List String) (url : String)
    (env : AttemptEnv) (conn : Bool) (next : Bool → List Effect) :
    List Effect :=
  Effect.log (.connectingInfo url) ::
    (if env.dialOk = false then Effect.log .dialError :: next conn
     else
       let login := try_login password env.loginId env.loginNet
       if login.1 = false then login.2 ++ next true
       else
         let sub :=
           try_subscribe_channels channels env.edgeId env.subId env.subNet
         if sub.1 = false then login.2 ++ sub.2 ++ next true
         else
           login.2 ++ sub.2 ++
             try_handel_msgs_forever env.streamStopping env.reads ++ next true)

/-- Embeds the supervisor loop `connect` over a finite list of attempt
environments (the fuel; the real loop is infinite). `first` and `conn`
are the loop flag and the connection handle at entry; the trace ends
either at the `is_stopping` return or when the fuel runs out. -/
def connect (password : String) (channels : List String) (url : String) :
    List AttemptEnv → Bool → Bool → List Effect
  | [], _, _ => []
  | env :: rest, first, conn =>
    if first then
      attemptStep password channels url env conn
        (fun c => connect password channels url rest false c)
    else
      let cl := cleanup conn
      if env.stopping then cl.2
      else
        cl.2 ++ [Effect.log (.reconnectWarn 10), Effect.sleep 10] ++
          attemptStep password channels url env cl.1
            (fun c => connect password channels url rest false c)

/-- Whether an effect is a call to the sink's `AddFields`. -/
def isAddFields : Effect → Bool
  | .addFields _ _ => true
  | _ => false

/-- The `AddFields` calls of a trace, in order. -/
def addCalls (effs : List Effect) : List Effect :=
  effs.filter isAddFields

/-- Whether an effect is the per-channel "no data for channel" warning. -/
def isNoChannelWarn : Effect → Bool
  | .log (.noChannelWarn _) => true
  | _ => false

/-- How many per-channel "no data" warnings a trace holds. -/
def chanWarnCount (effs : List Effect) : Nat :=
  effs.countP isNoChannelWarn

/-- Whether an effect is the "No measurement data!!!" warning. -/
def isNoMeasurementWarn : Effect → Bool
  | .log (.noMeasurementWarn _) => true
  | _ => false

/-- How many "No measurement data!!!" warnings a trace holds. -/
def emptyWarnCount (effs : List Effect) : Nat :=
  effs.countP isNoMeasurementWarn

theorem addCalls_append (a b : List Effect) :
    addCalls (a ++ b) = addCalls a ++ addCalls b :=
  List.filter_append ..

theorem addCalls_chanWarns (ks : List (String × JVal)) :
    addCalls (ks.map fun kv => Effect.log (.noChannelWarn kv.1)) = [] := by
  induction ks with
  | nil => rfl
  | cons k t ih => simp [addCalls, isAddFields] at ih ⊢; exact ih

theorem chanWarnCount_append (a b : List Effect) :
    chanWarnCount (a ++ b) = chanWarnCount a + chanWarnCount b :=
  List.countP_append ..

theorem chanWarnCount_chanWarns (ks : List (String × JVal)) :
    chanWarnCount (ks.map fun kv => Effect.log (.noChannelWarn kv.1))
      = ks.length := by
  simp [chanWarnCount, isNoChannelWarn]

/-- A concrete Push Event message with one non-null and one null
channel, and the event it decodes to. -/
def msgC1 : InMsg :=
  InMsg.valid
    (JVal.obj [("method", .str "edgeRpc"),
      ("params", .obj [("method", .str "currentData"),
        ("payload", .obj [("params",
          .obj [("ch1", .num 42), ("ch2", .null)])])])])
    "raw1"

/-- The event `msgC1` decodes to. -/
def evC1 : DataUpdateEvent :=
  { Method := "edgeRpc",
    EdgRpcParams :=
      { Method := "currentData",
        Payload := { Params := [("ch1", JVal.num 42), ("ch2", JVal.null)] } } }

/-- Handling one decoded event with a nonempty filtered mapping: exactly
one `addFields` with the filtered mapping, one warning per removed
channel. -/
theorem handleMsg_emits (m : InMsg) (ev : DataUpdateEvent)
    (hdec : unmarshalEventMsg m = .ok ev)
    (hkept : removeNulls ev.EdgRpcParams.Payload.Params ≠ []) :
    addCalls (handleMsg m)
      = [Effect.addFields "fems" (removeNulls ev.EdgRpcParams.Payload.Params)]
    ∧ chanWarnCount (handleMsg m)
      = (nullEntries ev.EdgRpcParams.Payload.Params).length
    ∧ emptyWarnCount (handleMsg m) = 0 := by
  have hlen : ¬ (removeNulls ev.EdgRpcParams.Payload.Params).length = 0 := by
    simpa [List.length_eq_zero] using hkept
  refine ⟨?_, ?_, ?_⟩
  · simp [handleMsg, hdec, hlen, addCalls_append, addCalls_chanWarns,
      addCalls, isAddFields]
    intro a x x' _ h
    subst h
    rfl
  · simp [handleMsg, hdec, hlen, chanWarnCount_append,
      chanWarnCount_chanWarns, chanWarnCount, isNoChannelWarn]
  · simp [handleMsg, hdec, hlen, emptyWarnCount, isNoMeasurementWarn]

/-- Handling one decoded event whose mapping is empty after null
removal: no `addFields`, one "No measurement data" warning holding the
raw message, one warning per removed channel. -/
theorem handleMsg_drops (m : InMsg) (ev : DataUpdateEvent)
    (hdec : unmarshalEventMsg m = .ok ev)
    (hall : removeNulls ev.EdgRpcParams.Payload.Params = []) :
    addCalls (handleMsg m) = []
    ∧ emptyWarnCount (handleMsg m) = 1
    ∧ Effect.log (.noMeasurementWarn m.raw) ∈ handleMsg m
    ∧ chanWarnCount (handleMsg m)
      = (nullEntries ev.EdgRpcParams.Payload.Params).length := by
  refine ⟨?_, ?_, ?_, ?_⟩
  · simp [handleMsg, hdec, hall, addCalls_append, addCalls_chanWarns,
      addCalls, isAddFields]
    intro a x x' _ h
    subst h
    rfl
  · simp [handleMsg, hdec, hall, emptyWarnCount, isNoMeasurementWarn]
  · simp [handleMsg, hdec, hall]
  · simp [handleMsg, hdec, hall, chanWarnCount_append,
      chanWarnCount_chanWarns, chanWarnCount, isNoChannelWarn]

/-- Handling one message that fails to decode: exactly the two parse
logs (the second holding the raw payload), nothing emitted. -/
theorem handleMsg_parseErr (m : InMsg)
    (hdec : unmarshalEventMsg m = .error ()) :
    handleMsg m = [.log .msgParseInfo, .log (.msgParseData m.raw)] := by
  simp [handleMsg, hdec]

/-- C1: for every received Push Event whose channel mapping contains at
least one non-null entry, the streaming loop handles the event once and
continues, the handling calls `addFields` exactly once, with source name
"fems" and fields equal to the event's params mapping with every
null-valued entry removed, and one warning is logged per removed
channel. -/
theorem C1_emit_once_filtered (stopping : Bool) (m : InMsg)
    (ev : DataUpdateEvent) (rest : List (Option InMsg))
    (hdec : unmarshalEventMsg m = .ok ev)
    (hne : ∃ kv ∈ ev.EdgRpcParams.Payload.Params, kv.2.isNull = false) :
    try_handel_msgs_forever stopping (some m :: rest)
      = handleMsg m ++ try_handel_msgs_forever stopping rest
    ∧ addCalls (handleMsg m)
      = [Effect.addFields "fems" (removeNulls ev.EdgRpcParams.Payload.Params)]
    ∧ chanWarnCount (handleMsg m)
      = (nullEntries ev.EdgRpcParams.Payload.Params).length := by
  obtain ⟨kv, hmem, hkv⟩ := hne
  have hkept : removeNulls ev.EdgRpcParams.Payload.Params ≠ [] := by
    intro h
    have hn : kv ∈ removeNulls ev.EdgRpcParams.Payload.Params :=
      List.mem_filter.mpr ⟨hmem, by simp [hkv]⟩
    rw [h] at hn
    exact absurd hn (List.not_mem_nil kv)
  exact ⟨rfl, (handleMsg_emits m ev hdec hkept).1,
    (handleMsg_emits m ev hdec hkept).2.1⟩

/-- Witness for C1 at the concrete event `msgC1`. -/
theorem C1_emit_once_filtered_witness :
    try_handel_msgs_forever false [some msgC1]
      = handleMsg msgC1 ++ try_handel_msgs_forever false []
    ∧ addCalls (handleMsg msgC1)
      = [Effect.addFields "fems" (removeNulls evC1.EdgRpcParams.Payload.Params)]
    ∧ chanWarnCount (handleMsg msgC1)
      = (nullEntries evC1.EdgRpcParams.Payload.Params).length :=
  C1_emit_once_filtered false msgC1 evC1 [] rfl
    ⟨("ch1", JVal.num 42), by simp [evC1], rfl⟩

/-- A concrete Push Event message whose only channel is null. -/
def msgC4 : InMsg :=
  InMsg.valid
    (JVal.obj [("method", .str "edgeRpc"),
      ("params", .obj [("method", .str "currentData"),
        ("payload", .obj [("params", .obj [("chA", .null)])])])])
    "raw4"

/-- The event `msgC4` decodes to. -/
def evC4 : DataUpdateEvent :=
  { Method := "edgeRpc",
    EdgRpcParams :=
      { Method := "currentData",
        Payload := { Params := [("chA", JVal.null)] } } }

/-- C4: for every received Push Event whose channel mapping is empty
after removing all null-valued entries, no Measurement Batch is emitted,
a warning holding the original raw message is logged exactly once, and
the streaming loop continues with the next read. -/
theorem C4_empty_batch_not_emitted (stopping : Bool) (m : InMsg)
    (ev : DataUpdateEvent) (rest : List (Option InMsg))
    (hdec : unmarshalEventMsg m = .ok ev)
    (hall : removeNulls ev.EdgRpcParams.Payload.Params = []) :
    try_handel_msgs_forever stopping (some m :: rest)
      = handleMsg m ++ try_handel_msgs_forever stopping rest
    ∧ addCalls (handleMsg m) = []
    ∧ emptyWarnCount (handleMsg m) = 1
    ∧ Effect.log (.noMeasurementWarn m.raw) ∈ handleMsg m :=
  ⟨rfl, (handleMsg_drops m ev hdec hall).1,
    (handleMsg_drops m ev hdec hall).2.1,
    (handleMsg_drops m ev hdec hall).2.2.1⟩

/-- Witness for C4 at the concrete event `msgC4`. -/
theorem C4_empty_batch_not_emitted_witness :
    try_handel_msgs_forever false [some msgC4]
      = handleMsg msgC4 ++ try_handel_msgs_forever false []
    ∧ addCalls (handleMsg msgC4) = []
    ∧ emptyWarnCount (handleMsg msgC4) = 1
    ∧ Effect.log (.noMeasurementWarn msgC4.raw) ∈ handleMsg msgC4 :=
  C4_empty_batch_not_emitted false msgC4 evC4 [] rfl rfl

/-- C8: a received message that fails to decode as a Push Event yields
exactly the two parse logs (the second holding the raw payload), emits
nothing, and the loop continues with the next read instead of
terminating. -/
theorem C8_malformed_push_skipped (stopping : Bool) (m : InMsg)
    (rest : List (Option InMsg))
    (hdec : unmarshalEventMsg m = .error ()) :
    try_handel_msgs_forever stopping (some m :: rest)
      = Effect.log .msgParseInfo :: Effect.log (.msgParseData m.raw) ::
          try_handel_msgs_forever stopping rest
    ∧ addCalls (handleMsg m) = [] := by
  have h := handleMsg_parseErr m hdec
  refine ⟨?_, ?_⟩
  · have he : try_handel_msgs_forever stopping (some m :: rest)
        = handleMsg m ++ try_handel_msgs_forever stopping rest := rfl
    rw [he, h]
    rfl
  · rw [h]
    rfl

/-- Witness for C8 at a message that is not valid JSON. -/
theorem C8_malformed_push_skipped_witness :
    try_handel_msgs_forever false [some (InMsg.invalid "not json")]
      = Effect.log .msgParseInfo ::
          Effect.log (.msgParseData (InMsg.invalid "not json").raw) ::
          try_handel_msgs_forever false []
    ∧ addCalls (handleMsg (InMsg.invalid "not json")) = [] :=
  C8_malformed_push_skipped false (InMsg.invalid "not json") [] rfl

/-- A concrete Push Event message whose channels carry the falsy-looking
values `0`, `false` and the empty string. -/
def msgC9 : InMsg :=
  InMsg.valid
    (JVal.obj [("method", .str "edgeRpc"),
      ("params", .obj [("method", .str "currentData"),
        ("payload", .obj [("params",
          .obj [("z", .num 0), ("b", .bool false), ("s", .str "")])])])])
    "raw9"

/-- The event `msgC9` decodes to. -/
def evC9 : DataUpdateEvent :=
  { Method := "edgeRpc",
    EdgRpcParams :=
      { Method := "currentData",
        Payload :=
          { Params := [("z", JVal.num 0), ("b", JVal.bool false),
                       ("s", JVal.str "")] } } }

/-- C9: null filtering removes only literally null values: an entry
whose value is the number `0`, the boolean `false` or the empty string
is kept unchanged and appears in the emitted Measurement Batch. -/
theorem C9_falsy_not_special (m : InMsg) (ev : DataUpdateEvent)
    (k : String) (v : JVal)
    (hdec : unmarshalEventMsg m = .ok ev)
    (hmem : (k, v) ∈ ev.EdgRpcParams.Payload.Params)
    (hfalsy : v = .num 0 ∨ v = .bool false ∨ v = .str "") :
    (k, v) ∈ removeNulls ev.EdgRpcParams.Payload.Params
    ∧ addCalls (handleMsg m)
      = [Effect.addFields "fems"
          (removeNulls ev.EdgRpcParams.Payload.Params)] := by
  have hnn : v.isNull = false := by
    rcases hfalsy with h | h | h <;> subst h <;> rfl
  have hk : (k, v) ∈ removeNulls ev.EdgRpcParams.Payload.Params :=
    List.mem_filter.mpr ⟨hmem, by simp [hnn]⟩
  exact ⟨hk, (handleMsg_emits m ev hdec (List.ne_nil_of_mem hk)).1⟩

/-- Witness for C9 at the concrete event `msgC9` and the zero-valued
channel. -/
theorem C9_falsy_not_special_witness :
    ("z", JVal.num 0) ∈ removeNulls evC9.EdgRpcParams.Payload.Params
    ∧ addCalls (handleMsg msgC9)
      = [Effect.addFields "fems"
          (removeNulls evC9.EdgRpcParams.Payload.Params)] :=
  C9_falsy_not_special msgC9 evC9 "z" (JVal.num 0) rfl (by simp [evC9])
    (Or.inl rfl)

/-- C2: `try_login` returns true iff the send succeeds and the single
response read is valid JSON decoding to an `RpcResponse` whose id equals
the request's fresh id and whose error field is null; in every other
case (send failure, read failure, malformed body, id mismatch, server
error) it returns false. -/
theorem C2_login_true_iff (password freshId : String) (env : NetEnv) :
    (try_login password freshId env).1 = true ↔
      env.sendErr = false
      ∧ ∃ m resp, env.readResult = some m
          ∧ unmarshalRpcResponseMsg m = .ok resp
          ∧ resp.Id = freshId
          ∧ resp.Error = none := by
  obtain ⟨se, rr⟩ := env
  cases se with
  | true => simp [try_login]
  | false =>
    cases rr with
    | none => simp [try_login]
    | some m =>
      cases hu : unmarshalRpcResponseMsg m with
      | error e => simp [try_login, hu]
      | ok resp =>
        by_cases hid : resp.Id = freshId
        · cases he : resp.Error with
          | some err =>
            simp [try_login, hu, hid, he, getRequest, RpcReq.setParams,
              RpcReq.Id]
          | none =>
            simp [try_login, hu, hid, he, getRequest, RpcReq.setParams,
              RpcReq.Id]
        · simp [try_login, hu, hid, getRequest, RpcReq.setParams, RpcReq.Id]

/-- Whether a log call reports a failure (dial, send, read, parse, id
mismatch, server error, null channel, empty batch), as opposed to the
trace/progress logs. -/
def isFailLog : LogEvent → Bool
  | .dialError => true
  | .loginWriteError => true
  | .loginReadInfo => true
  | .loginParseInfo => true
  | .loginParseData _ => true
  | .loginIdError _ => true
  | .loginFailedError _ _ => true
  | .subWriteError => true
  | .subReadInfo => true
  | .subParseInfo => true
  | .subParseData _ => true
  | .subIdError _ _ => true
  | .subFailedError _ _ => true
  | .readErrorInfo => true
  | .msgParseInfo => true
  | .msgParseData _ => true
  | .noChannelWarn _ => true
  | .noMeasurementWarn _ => true
  | _ => false

/-- How many failure logs a trace holds. -/
def failLogCount (effs : List Effect) : Nat :=
  effs.countP fun e =>
    match e with
    | .log ev => isFailLog ev
    | _ => false

theorem failLogCount_append (a b : List Effect) :
    failLogCount (a ++ b) = failLogCount a + failLogCount b :=
  List.countP_append ..

theorem failLogCount_chanWarns (ks : List (String × JVal)) :
    failLogCount (ks.map fun kv => Effect.log (.noChannelWarn kv.1))
      = ks.length := by
  simp [failLogCount, isFailLog]

/-- Whether an exchange environment makes the response-body parse fail
(send succeeded, read succeeded, body does not decode). -/
def parseFailedExchange (env : NetEnv) : Bool :=
  !env.sendErr &&
    (match env.readResult with
     | some msg =>
       (match unmarshalRpcResponseMsg msg with
        | .error _ => true
        | .ok _ => false)
     | none => false)

/-- The failure-log count the amended claim predicts for one exchange:
none on success, two on a malformed response body, one on every other
failure. -/
def specFailLogsExchange (ok : Bool) (env : NetEnv) : Nat :=
  if ok then 0 else if parseFailedExchange env then 2 else 1

/-- The failure-log count the amended claim predicts for one received
streaming message: two for an undecodable message, otherwise one per
null channel plus one if the batch is empty after filtering. -/
def specFailLogsPerMsg (m : InMsg) : Nat :=
  match unmarshalEventMsg m with
  | .error _ => 2
  | .ok ev =>
    (nullEntries ev.EdgRpcParams.Payload.Params).length
      + (if (removeNulls ev.EdgRpcParams.Payload.Params).length = 0
         then 1 else 0)

/-- C3 counterexample: a single failure (malformed login response body)
produces two log entries, not exactly one. -/
theorem C3_two_logs_counterexample :
    (try_login "owner" "id1"
      { sendErr := false, readResult := some (InMsg.invalid "garbage") }).1
      = false
    ∧ failLogCount (try_login "owner" "id1"
        { sendErr := false, readResult := some (InMsg.invalid "garbage") }).2
      ≠ 1 := by
  constructor
  · rfl
  · decide


/-- Whether an effect is the "connection closed" log. -/
def isConnClosedLog : Effect → Bool
  | .log .connClosedInfo => true
  | _ => false

/-- C6: cleanup is idempotent: after any call the handle is nil; calling
it on a closed (or never opened) session is a no-op with no effects; a
second call after any call is a no-op; and the "connection closed" log
is produced exactly once per real close. -/
theorem C6_cleanup_idempotent (conn : Bool) :
    (cleanup conn).1 = false
    ∧ cleanup false = (false, [])
    ∧ cleanup (cleanup conn).1 = (false, [])
    ∧ (cleanup conn).2.countP isConnClosedLog = (if conn then 1 else 0) := by
  cases conn <;> simp [cleanup, isConnClosedLog]

/-- C7: the subscription request is a nested envelope: outer method
`edgeRpc` with parameters edgeId "0" and payload the inner request,
inner method `subscribeChannels` with parameters count 0 and the
configured channel list in order; the response is validated against the
outer envelope's id and `try_subscribe_channels` returns true iff the
round trip is clean. -/
theorem C7_subscribe_nested_envelope (channels : List String)
    (edgeFreshId subFreshId : String) (env : NetEnv) :
    (get_subscribe_channels_request channels edgeFreshId subFreshId).Method
      = "edgeRpc"
    ∧ (get_subscribe_channels_request channels edgeFreshId subFreshId).Id
      = edgeFreshId
    ∧ (get_subscribe_channels_request channels edgeFreshId subFreshId).Params
      = .edgeRpcParams "0"
          (RpcReq.mk "2.0" "subscribeChannels" subFreshId
            (.subscribeParams 0 channels))
    ∧ ((try_subscribe_channels channels edgeFreshId subFreshId env).1 = true ↔
        env.sendErr = false
        ∧ ∃ m resp, env.readResult = some m
            ∧ unmarshalRpcResponseMsg m = .ok resp
            ∧ resp.Id = edgeFreshId
            ∧ resp.Error = none) := by
  refine ⟨rfl, rfl, rfl, ?_⟩
  obtain ⟨se, rr⟩ := env
  cases se with
  | true => simp [try_subscribe_channels]
  | false =>
    cases rr with
    | none => simp [try_subscribe_channels]
    | some m =>
      cases hu : unmarshalRpcResponseMsg m with
      | error e => simp [try_subscribe_channels, hu]
      | ok resp =>
        by_cases hid : resp.Id = edgeFreshId
        · cases he : resp.Error with
          | some err =>
            simp [try_subscribe_channels, hu, hid, he,
              get_subscribe_channels_request, getRequest, RpcReq.setParams,
              RpcReq.Id]
          | none =>
            simp [try_subscribe_channels, hu, hid, he,
              get_subscribe_channels_request, getRequest, RpcReq.setParams,
              RpcReq.Id]
        · simp [try_subscribe_channels, hu, hid,
            get_subscribe_channels_request, getRequest, RpcReq.setParams,
            RpcReq.Id]

/-- The sleep durations of a trace, in order. -/
def sleepsOf (effs : List Effect) : List Nat :=
  effs.filterMap fun e =>
    match e with
    | .sleep n => some n
    | _ => none

/-- Whether an effect is the "Connecting to" log opening an attempt. -/
def isConnectingLog : Effect → Bool
  | .log (.connectingInfo _) => true
  | _ => false

/-- How many "Connecting to" logs (connection attempts) a trace holds. -/
def connectingCount (effs : List Effect) : Nat :=
  effs.countP isConnectingLog

/-- Whether an effect can be produced by an exchange, the streaming
loop, or cleanup — anything but the supervisor's own sleep, retry log,
attempt log and dial-failure log. -/
def stepEffect : Effect → Bool
  | .sleep _ => false
  | .log (.connectingInfo _) => false
  | .log (.reconnectWarn _) => false
  | .log .dialError => false
  | _ => true

/-- Whether an effect is the dial-failure log. -/
def isDialErrLog : Effect → Bool
  | .log .dialError => true
  | _ => false

/-- How many dial-failure logs a trace holds. -/
def dialErrCount (effs : List Effect) : Nat :=
  effs.countP isDialErrLog

theorem sleepsOf_append (a b : List Effect) :
    sleepsOf (a ++ b) = sleepsOf a ++ sleepsOf b :=
  List.filterMap_append ..

theorem sleepsOf_of_stepEffects (l : List Effect)
    (h : l.all stepEffect = true) : sleepsOf l = [] := by
  induction l with
  | nil => rfl
  | cons e t ih =>
    simp only [List.all_cons, Bool.and_eq_true] at h
    have ht := ih h.2
    cases e with
    | sleep n => simp [stepEffect] at h
    | log ev => simpa [sleepsOf] using ht
    | addFields a b => simpa [sleepsOf] using ht
    | closeConn => simpa [sleepsOf] using ht

theorem not_connecting_of_stepEffect (e : Effect) (h : stepEffect e = true) :
    isConnectingLog e = false := by
  cases e with
  | log ev => cases ev <;> first | rfl | exact Bool.noConfusion h
  | sleep n => rfl
  | addFields a b => rfl
  | closeConn => rfl

theorem not_dialErr_of_stepEffect (e : Effect) (h : stepEffect e = true) :
    isDialErrLog e = false := by
  cases e with
  | log ev => cases ev <;> first | rfl | exact Bool.noConfusion h
  | sleep n => rfl
  | addFields a b => rfl
  | closeConn => rfl

theorem dialErrCount_of_stepEffects (l : List Effect)
    (h : l.all stepEffect = true) : dialErrCount l = 0 := by
  induction l with
  | nil => rfl
  | cons e t ih =>
    simp only [List.all_cons, Bool.and_eq_true] at h
    have ht := ih h.2
    simp only [dialErrCount, List.countP_cons] at ht ⊢
    simp [ht]
    exact not_dialErr_of_stepEffect e h.1

theorem connectingCount_of_stepEffects (l : List Effect)
    (h : l.all stepEffect = true) : connectingCount l = 0 := by
  induction l with
  | nil => rfl
  | cons e t ih =>
    simp only [List.all_cons, Bool.and_eq_true] at h
    have ht := ih h.2
    simp only [connectingCount, List.countP_cons] at ht ⊢
    simp [ht]
    exact not_connecting_of_stepEffect e h.1

theorem login_stepEffects (p i : String) (env : NetEnv) :
    (try_login p i env).2.all stepEffect = true := by
  obtain ⟨se, rr⟩ := env
  cases se
  · cases rr with
    | none => simp [try_login, stepEffect]
    | some m =>
      cases hu : unmarshalRpcResponseMsg m with
      | error e => simp [try_login, hu, stepEffect]
      | ok resp =>
        by_cases hid : resp.Id = i
        · cases he : resp.Error with
          | some err => simp [try_login, hu, hid, he, getRequest,
              RpcReq.setParams, RpcReq.Id, stepEffect]
          | none => simp [try_login, hu, hid, he, getRequest,
              RpcReq.setParams, RpcReq.Id, stepEffect]
        · simp [try_login, hu, hid, getRequest, RpcReq.setParams,
            RpcReq.Id, stepEffect]
  · simp [try_login, stepEffect]

theorem subscribe_stepEffects (ch : List String) (ei si : String)
    (env : NetEnv) :
    (try_subscribe_channels ch ei si env).2.all stepEffect = true := by
  obtain ⟨se, rr⟩ := env
  cases se
  · cases rr with
    | none => simp [try_subscribe_channels, stepEffect]
    | some m =>
      cases hu : unmarshalRpcResponseMsg m with
      | error e => simp [try_subscribe_channels, hu, stepEffect]
      | ok resp =>
        by_cases hid : resp.Id = ei
        · cases he : resp.Error with
          | some err => simp [try_subscribe_channels, hu, hid, he,
              get_subscribe_channels_request, getRequest, RpcReq.setParams,
              RpcReq.Id, stepEffect]
          | none => simp [try_subscribe_channels, hu, hid, he,
              get_subscribe_channels_request, getRequest, RpcReq.setParams,
              RpcReq.Id, stepEffect]
        · simp [try_subscribe_channels, hu, hid,
            get_subscribe_channels_request, getRequest, RpcReq.setParams,
            RpcReq.Id, stepEffect]
  · simp [try_subscribe_channels, stepEffect]

theorem handleMsg_stepEffects (m : InMsg) :
    (handleMsg m).all stepEffect = true := by
  cases hu : unmarshalEventMsg m with
  | error e =>
    cases e
    rw [handleMsg_parseErr m hu]
    rfl
  | ok ev =>
    by_cases hlen : (removeNulls ev.EdgRpcParams.Payload.Params).length = 0 <;>
      · simp [handleMsg, hu, hlen, stepEffect, List.all_append]
        intro x k v _ hx
        subst hx
        rfl

theorem stream_stepEffects (stopping : Bool) (reads : List (Option InMsg)) :
    (try_handel_msgs_forever stopping reads).all stepEffect = true := by
  induction reads with
  | nil => rfl
  | cons r rest ih =>
    cases r with
    | none => cases stopping <;> simp [try_handel_msgs_forever, stepEffect]
    | some m =>
      simp only [try_handel_msgs_forever, List.all_append,
        Bool.and_eq_true]
      exact ⟨handleMsg_stepEffects m, ih⟩

theorem cleanup_stepEffects (conn : Bool) :
    (cleanup conn).2.all stepEffect = true := by
  cases conn <;> simp [cleanup, stepEffect]

theorem sleepsOf_cons_log (ev : LogEvent) (l : List Effect) :
    sleepsOf (Effect.log ev :: l) = sleepsOf l := by
  simp [sleepsOf]

theorem connectingCount_append (a b : List Effect) :
    connectingCount (a ++ b) = connectingCount a + connectingCount b :=
  List.countP_append ..

theorem sleepsOf_attemptStep (p : String) (ch : List String) (u : String)
    (env : AttemptEnv) (conn : Bool) (next : Bool → List Effect) (n : Nat)
    (hn : n ∈ sleepsOf (attemptStep p ch u env conn next)) :
    n ∈ sleepsOf (next conn) ∨ n ∈ sleepsOf (next true) := by
  have hlog :=
    sleepsOf_of_stepEffects _ (login_stepEffects p env.loginId env.loginNet)
  have hsub := sleepsOf_of_stepEffects _
    (subscribe_stepEffects ch env.edgeId env.subId env.subNet)
  have hstr := sleepsOf_of_stepEffects _
    (stream_stepEffects env.streamStopping env.reads)
  simp only [attemptStep, sleepsOf_cons_log] at hn
  by_cases hd : env.dialOk = false
  · rw [if_pos hd, sleepsOf_cons_log] at hn
    exact Or.inl hn
  · rw [if_neg hd] at hn
    by_cases h1 : (try_login p env.loginId env.loginNet).1 = false
    · rw [if_pos h1, sleepsOf_append, hlog] at hn
      exact Or.inr (by simpa using hn)
    · rw [if_neg h1] at hn
      by_cases h2 : (try_subscribe_channels ch env.edgeId env.subId
          env.subNet).1 = false
      · rw [if_pos h2, sleepsOf_append, sleepsOf_append, hlog, hsub] at hn
        exact Or.inr (by simpa using hn)
      · rw [if_neg h2, sleepsOf_append, sleepsOf_append, sleepsOf_append,
          hlog, hsub, hstr] at hn
        exact Or.inr (by simpa using hn)

theorem connectingCount_attemptStep (p : String) (ch : List String)
    (u : String) (env : AttemptEnv) (conn : Bool)
    (next : Bool → List Effect) :
    ∃ c, connectingCount (attemptStep p ch u env conn next)
      = 1 + connectingCount (next c) := by
  have hlog := connectingCount_of_stepEffects _
    (login_stepEffects p env.loginId env.loginNet)
  have hsub := connectingCount_of_stepEffects _
    (subscribe_stepEffects ch env.edgeId env.subId env.subNet)
  have hstr := connectingCount_of_stepEffects _
    (stream_stepEffects env.streamStopping env.reads)
  simp only [connectingCount] at hlog hsub hstr
  simp only [attemptStep]
  by_cases hd : env.dialOk = false
  · refine ⟨conn, ?_⟩
    rw [if_pos hd]
    simp [connectingCount, List.countP_cons, isConnectingLog]
    omega
  · rw [if_neg hd]
    refine ⟨true, ?_⟩
    by_cases h1 : (try_login p env.loginId env.loginNet).1 = false
    · rw [if_pos h1]
      simp [connectingCount, List.countP_cons, List.countP_append,
        isConnectingLog, hlog]
      omega
    · rw [if_neg h1]
      by_cases h2 : (try_subscribe_channels ch env.edgeId env.subId
          env.subNet).1 = false
      · rw [if_pos h2]
        simp [connectingCount, List.countP_cons, List.countP_append,
          isConnectingLog, hlog, hsub]
        omega
      · rw [if_neg h2]
        simp [connectingCount, List.countP_cons, List.countP_append,
          isConnectingLog, hlog, hsub, hstr]
        omega

theorem dialErrCount_attemptStep (p : String) (ch : List String)
    (u : String) (env : AttemptEnv) (conn : Bool)
    (next : Bool → List Effect) :
    dialErrCount (attemptStep p ch u env conn next)
      = (if env.dialOk = false then 1 else 0)
        + dialErrCount (next (if env.dialOk = false then conn else true)) := by
  have hlog := dialErrCount_of_stepEffects _
    (login_stepEffects p env.loginId env.loginNet)
  have hsub := dialErrCount_of_stepEffects _
    (subscribe_stepEffects ch env.edgeId env.subId env.subNet)
  have hstr := dialErrCount_of_stepEffects _
    (stream_stepEffects env.streamStopping env.reads)
  simp only [dialErrCount] at hlog hsub hstr
  simp only [attemptStep]
  by_cases hd : env.dialOk = false
  · rw [if_pos hd]
    simp [dialErrCount, List.countP_cons, isDialErrLog, hd]
    omega
  · rw [if_neg hd]
    by_cases h1 : (try_login p env.loginId env.loginNet).1 = false
    · rw [if_pos h1]
      simp [dialErrCount, List.countP_cons, List.countP_append,
        isDialErrLog, hlog, hd]
    · rw [if_neg h1]
      by_cases h2 : (try_subscribe_channels ch env.edgeId env.subId
          env.subNet).1 = false
      · rw [if_pos h2]
        simp [dialErrCount, List.countP_cons, List.countP_append,
          isDialErrLog, hlog, hsub, hd]
      · rw [if_neg h2]
        simp [dialErrCount, List.countP_cons, List.countP_append,
          isDialErrLog, hlog, hsub, hstr, hd]

/-- C3 amended: no failure is silently swallowed, and each failure
occurrence produces exactly one log entry — a dial failure produces
exactly one dial-error log per failing attempt — except a malformed
response or push body, which produces exactly two (the parse error and
the raw data), and a receive failure observed while stopping, which is
intentionally silent. -/
theorem C3_fail_logging_amended (password freshId : String) (env : NetEnv)
    (channels : List String) (edgeFreshId subFreshId : String)
    (env' : NetEnv) (stopping : Bool) (rest : List (Option InMsg))
    (m : InMsg) (url : String) (aenv : AttemptEnv) (conn : Bool)
    (next : Bool → List Effect) :
    failLogCount (try_login password freshId env).2
      = specFailLogsExchange (try_login password freshId env).1 env
    ∧ failLogCount
        (try_subscribe_channels channels edgeFreshId subFreshId env').2
      = specFailLogsExchange
          (try_subscribe_channels channels edgeFreshId subFreshId env').1 env'
    ∧ try_handel_msgs_forever stopping (none :: rest)
      = (if stopping then [] else [Effect.log .readErrorInfo])
    ∧ failLogCount (handleMsg m) = specFailLogsPerMsg m
    ∧ dialErrCount (attemptStep password channels url aenv conn next)
      = (if aenv.dialOk = false then 1 else 0)
        + dialErrCount (next (if aenv.dialOk = false then conn else true))
        := by
  refine ⟨?_, ?_, rfl, ?_,
    dialErrCount_attemptStep password channels url aenv conn next⟩
  · obtain ⟨se, rr⟩ := env
    cases se with
    | true => simp [try_login, specFailLogsExchange, parseFailedExchange,
        failLogCount, isFailLog]
    | false =>
      cases rr with
      | none => simp [try_login, specFailLogsExchange, parseFailedExchange,
          failLogCount, isFailLog]
      | some msg =>
        cases hu : unmarshalRpcResponseMsg msg with
        | error e =>
          simp [try_login, specFailLogsExchange, parseFailedExchange, hu,
            failLogCount, isFailLog]
        | ok resp =>
          by_cases hid : resp.Id = freshId
          · cases he : resp.Error with
            | some err =>
              simp [try_login, specFailLogsExchange, parseFailedExchange,
                hu, hid, he, getRequest, RpcReq.setParams, RpcReq.Id,
                failLogCount, isFailLog]
            | none =>
              simp [try_login, specFailLogsExchange, parseFailedExchange,
                hu, hid, he, getRequest, RpcReq.setParams, RpcReq.Id,
                failLogCount, isFailLog]
          · simp [try_login, specFailLogsExchange, parseFailedExchange, hu,
              hid, getRequest, RpcReq.setParams, RpcReq.Id,
              failLogCount, isFailLog]
  · obtain ⟨se, rr⟩ := env'
    cases se with
    | true => simp [try_subscribe_channels, specFailLogsExchange,
        parseFailedExchange, failLogCount, isFailLog]
    | false =>
      cases rr with
      | none => simp [try_subscribe_channels, specFailLogsExchange,
          parseFailedExchange, failLogCount, isFailLog]
      | some msg =>
        cases hu : unmarshalRpcResponseMsg msg with
        | error e =>
          simp [try_subscribe_channels, specFailLogsExchange,
            parseFailedExchange, hu, failLogCount, isFailLog]
        | ok resp =>
          by_cases hid : resp.Id = edgeFreshId
          · cases he : resp.Error with
            | some err =>
              simp [try_subscribe_channels, specFailLogsExchange,
                parseFailedExchange, hu, hid, he,
                get_subscribe_channels_request, getRequest,
                RpcReq.setParams, RpcReq.Id, failLogCount, isFailLog]
            | none =>
              simp [try_subscribe_channels, specFailLogsExchange,
                parseFailedExchange, hu, hid, he,
                get_subscribe_channels_request, getRequest,
                RpcReq.setParams, RpcReq.Id, failLogCount, isFailLog]
          · simp [try_subscribe_channels, specFailLogsExchange,
              parseFailedExchange, hu, hid,
              get_subscribe_channels_request, getRequest,
              RpcReq.setParams, RpcReq.Id, failLogCount, isFailLog]
  · cases hu : unmarshalEventMsg m with
    | error e =>
      cases e
      rw [handleMsg_parseErr m hu]
      simp [specFailLogsPerMsg, hu, failLogCount, isFailLog]
    | ok ev =>
      have hwarn :=
        failLogCount_chanWarns (nullEntries ev.EdgRpcParams.Payload.Params)
      simp only [failLogCount] at hwarn
      by_cases hlen :
          (removeNulls ev.EdgRpcParams.Payload.Params).length = 0
      · simp only [handleMsg, hu, hlen, if_pos, specFailLogsPerMsg,
          failLogCount, List.countP_cons, List.countP_append]
        simp [hwarn, isFailLog]
      · simp only [handleMsg, hu, hlen, if_neg, if_false, ite_false,
          specFailLogsPerMsg, failLogCount, List.countP_cons,
          List.countP_append]
        simp [hlen, hwarn, isFailLog]

theorem sleeps_connect_all_ten (p : String) (ch : List String) (u : String) :
    ∀ (envs : List AttemptEnv) (first conn : Bool),
      ∀ n ∈ sleepsOf (connect p ch u envs first conn), n = 10 := by
  intro envs
  induction envs with
  | nil =>
    intro first conn n hn
    simp [connect, sleepsOf] at hn
  | cons env rest ih =>
    intro first conn n hn
    cases first with
    | true =>
      have hn' := sleepsOf_attemptStep p ch u env conn
        (fun c => connect p ch u rest false c) n hn
      rcases hn' with h | h
      · exact ih false conn n h
      · exact ih false true n h
    | false =>
      have hcl :=
        sleepsOf_of_stepEffects _ (cleanup_stepEffects conn)
      by_cases hs : env.stopping = true
      · rw [show connect p ch u (env :: rest) false conn
            = (cleanup conn).2 by simp [connect, hs]] at hn
        rw [hcl] at hn
        exact absurd hn (List.not_mem_nil n)
      · rw [show connect p ch u (env :: rest) false conn
            = (cleanup conn).2 ++
              [Effect.log (.reconnectWarn 10), Effect.sleep 10] ++
              attemptStep p ch u env (cleanup conn).1
                (fun c => connect p ch u rest false c)
            by simp [connect, hs]] at hn
        rw [sleepsOf_append, sleepsOf_append, hcl] at hn
        simp only [List.nil_append] at hn
        have h2 : sleepsOf
            [Effect.log (.reconnectWarn 10), Effect.sleep 10] = [10] := rfl
        rw [h2] at hn
        rcases List.mem_append.mp hn with h | h
        · simpa using h
        · have hn' := sleepsOf_attemptStep p ch u env (cleanup conn).1
            (fun c => connect p ch u rest false c) n h
          rcases hn' with h' | h'
          · exact ih false (cleanup conn).1 n h'
          · exact ih false true n h'

theorem connect_attempt_count (p : String) (ch : List String) (u : String) :
    ∀ (envs : List AttemptEnv) (first conn : Bool),
      (∀ e ∈ envs, e.stopping = false) →
      connectingCount (connect p ch u envs first conn) = envs.length := by
  intro envs
  induction envs with
  | nil => intro first conn _; rfl
  | cons env rest ih =>
    intro first conn h
    have hrest : ∀ e ∈ rest, e.stopping = false :=
      fun e he => h e (List.mem_cons_of_mem _ he)
    have henv : env.stopping = false := h env (List.mem_cons_self _ _)
    cases first with
    | true =>
      obtain ⟨c, hc⟩ := connectingCount_attemptStep p ch u env conn
        (fun c => connect p ch u rest false c)
      have he : connect p ch u (env :: rest) true conn
          = attemptStep p ch u env conn
              (fun c => connect p ch u rest false c) := rfl
      rw [he, hc, ih false c hrest]
      simp [Nat.add_comm]
    | false =>
      obtain ⟨c, hc⟩ := connectingCount_attemptStep p ch u env
        (cleanup conn).1 (fun c => connect p ch u rest false c)
      have hcl := connectingCount_of_stepEffects _ (cleanup_stepEffects conn)
      rw [show connect p ch u (env :: rest) false conn
          = (cleanup conn).2 ++
            [Effect.log (.reconnectWarn 10), Effect.sleep 10] ++
            attemptStep p ch u env (cleanup conn).1
              (fun c => connect p ch u rest false c)
          by simp [connect, henv]]
      rw [connectingCount_append, connectingCount_append, hcl, hc,
        ih false c hrest]
      simp [connectingCount, isConnectingLog, Nat.add_comm]

/-- A concrete attempt environment: not stopping, dial fails. -/
def envDial : AttemptEnv :=
  { stopping := false, dialOk := false, loginId := "",
    loginNet := { sendErr := false, readResult := none },
    edgeId := "", subId := "",
    subNet := { sendErr := false, readResult := none },
    streamStopping := false, reads := [] }

/-- A concrete attempt environment with the shutdown flag set. -/
def envStop : AttemptEnv := { envDial with stopping := true }

/-- C5 counterexample: on a retry iteration the supervisor logs the
reconnect warning before sleeping, not after: the sleep effect never
precedes the warning in the trace. -/
theorem C5_sleep_order_counterexample :
    connect "p" ["c"] "u" [envDial] false false
      = [Effect.log (.reconnectWarn 10), Effect.sleep 10,
         Effect.log (.connectingInfo "u"), Effect.log .dialError]
    ∧ ¬ ∃ i j : Nat, i < j
        ∧ (connect "p" ["c"] "u" [envDial] false false)[i]?
          = some (Effect.sleep 10)
        ∧ (connect "p" ["c"] "u" [envDial] false false)[j]?
          = some (Effect.log (.reconnectWarn 10)) := by
  have htr : connect "p" ["c"] "u" [envDial] false false
      = [Effect.log (.reconnectWarn 10), Effect.sleep 10,
         Effect.log (.connectingInfo "u"), Effect.log .dialError] := rfl
  refine ⟨htr, ?_⟩
  rintro ⟨i, j, hij, hi, hj⟩
  rw [htr] at hi hj
  rcases j with _ | _ | _ | _ | j
  · exact Nat.not_lt_zero i hij
  · simp at hj
  · simp at hj
  · simp at hj
  · simp at hj

/-- C5 amended: no delay before the first attempt; before every later
attempt the supervisor performs cleanup, returns if the shutdown flag is
set, and otherwise logs the retry warning and then sleeps exactly 10
seconds before retrying; every sleep in any run is 10 seconds and every
non-stopping iteration performs an attempt (no retry cap). -/
theorem C5_backoff_amended (password : String) (channels : List String)
    (url : String) (env : AttemptEnv) (rest envs : List AttemptEnv)
    (first conn conn' : Bool) :
    connect password channels url (env :: rest) true conn
      = attemptStep password channels url env conn
          (fun c => connect password channels url rest false c)
    ∧ (env.stopping = true →
        connect password channels url (env :: rest) false conn
          = (cleanup conn).2)
    ∧ (env.stopping = false →
        connect password channels url (env :: rest) false conn
          = (cleanup conn).2
            ++ [Effect.log (.reconnectWarn 10), Effect.sleep 10]
            ++ attemptStep password channels url env (cleanup conn).1
                (fun c => connect password channels url rest false c))
    ∧ (∀ n ∈ sleepsOf (connect password channels url envs first conn'),
        n = 10)
    ∧ ((∀ e ∈ envs, e.stopping = false) →
        connectingCount (connect password channels url envs first conn')
          = envs.length) := by
  refine ⟨rfl, ?_, ?_,
    sleeps_connect_all_ten password channels url envs first conn',
    connect_attempt_count password channels url envs first conn'⟩
  · intro hs
    simp [connect, hs]
  · intro hs
    simp [connect, hs]

/-- Witness for C5 amended at concrete attempt environments. -/
theorem C5_backoff_amended_witness :
    connect "p" ["c"] "u" [envStop] false false = (cleanup false).2
    ∧ connect "p" ["c"] "u" [envDial] false false
      = (cleanup false).2
        ++ [Effect.log (.reconnectWarn 10), Effect.sleep 10]
        ++ attemptStep "p" ["c"] "u" envDial (cleanup false).1
            (fun c => connect "p" ["c"] "u" [] false c)
    ∧ connectingCount (connect "p" ["c"] "u" [envDial] false false) = 1 :=
  ⟨(C5_backoff_amended "p" ["c"] "u" envStop [] [] false false false).2.1 rfl,
   (C5_backoff_amended "p" ["c"] "u" envDial [] [] false false false).2.2.1
     rfl,
   (C5_backoff_amended "p" ["c"] "u" envDial [] [envDial] false false
       false).2.2.2.2
     (fun e he => by
       rw [List.mem_singleton] at he
       subst he
       rfl)⟩

theorem unmEventFields_skip (kvs : List (String × JVal))
    (cur : DataUpdateEvent)
    (h : ∀ kv ∈ kvs,
      eqFold kv.1 "method" = false ∧ eqFold kv.1 "params" = false) :
    unmEventFields kvs cur = .ok cur := by
  induction kvs with
  | nil => rfl
  | cons kv rest ih =>
    have h1 := h kv (List.mem_cons_self _ _)
    have hrest : ∀ x ∈ rest,
        eqFold x.1 "method" = false ∧ eqFold x.1 "params" = false :=
      fun x hx => h x (List.mem_cons_of_mem _ hx)
    obtain ⟨k, v⟩ := kv
    simp only at h1
    simp [unmEventFields, h1.1, h1.2, ih hrest]

/-- The case-insensitive key matching of the embedding agrees with the
program: an object keyed "Params"/"Payload" decodes to an event carrying
the nested channel mapping, and "METHOD" with a number is a type
error. -/
theorem unmarshal_case_insensitive_examples :
    unmarshalEventMsg (InMsg.valid
        (JVal.obj [("Params", .obj [("Payload",
          .obj [("params", .obj [("ch1", .num 42)])])])]) "r12")
      = .ok { Method := "",
              EdgRpcParams :=
                { Method := "",
                  Payload := { Params := [("ch1", JVal.num 42)] } } }
    ∧ unmarshalEventMsg (InMsg.valid (JVal.obj [("METHOD", .num 5)]) "r13")
      = .error () :=
  ⟨rfl, rfl⟩

/-- C10 counterexample: a message that is valid JSON but not an object
(here the JSON string "hello") does not decode to an event with empty
params; it is a decode failure, handled by the parse-failure branch and
not by the "no measurement data" branch. -/
theorem C10_valid_json_decode_failure_counterexample :
    unmarshalEventMsg (InMsg.valid (JVal.str "hello") "q") = .error ()
    ∧ handleMsg (InMsg.valid (JVal.str "hello") "q")
      = [.log .msgParseInfo, .log (.msgParseData "q")]
    ∧ emptyWarnCount (handleMsg (InMsg.valid (JVal.str "hello") "q")) = 0 :=
  ⟨rfl, rfl, rfl⟩

/-- C10 amended: a valid-JSON message never terminates the streaming
loop; if it fails to decode (non-object top level or wrong-typed fields)
it is handled as a decode failure, logged with its raw payload, emitting
nothing; if it decodes with a params mapping that is empty after null
removal it falls into the empty-batch branch (one warning with the raw
message, nothing emitted); and a JSON object none of whose keys matches
the expected `method`/`params` fields even case-insensitively does
decode, to the zero event with empty params. -/
theorem C10_shape_mismatch_amended (j : JVal) (raw : String)
    (stopping : Bool) (rest : List (Option InMsg))
    (ev : DataUpdateEvent) (kvs : List (String × JVal)) :
    try_handel_msgs_forever stopping (some (InMsg.valid j raw) :: rest)
      = handleMsg (InMsg.valid j raw)
        ++ try_handel_msgs_forever stopping rest
    ∧ (unmarshalEventMsg (InMsg.valid j raw) = .error () →
        handleMsg (InMsg.valid j raw)
          = [.log .msgParseInfo, .log (.msgParseData raw)]
        ∧ addCalls (handleMsg (InMsg.valid j raw)) = [])
    ∧ (unmarshalEventMsg (InMsg.valid j raw) = .ok ev →
        removeNulls ev.EdgRpcParams.Payload.Params = [] →
        addCalls (handleMsg (InMsg.valid j raw)) = []
        ∧ emptyWarnCount (handleMsg (InMsg.valid j raw)) = 1
        ∧ Effect.log (.noMeasurementWarn raw) ∈ handleMsg (InMsg.valid j raw))
    ∧ ((∀ kv ∈ kvs,
          eqFold kv.1 "method" = false ∧ eqFold kv.1 "params" = false) →
        unmarshalEventMsg (InMsg.valid (.obj kvs) raw) = .ok zeroEvent) := by
  refine ⟨rfl, ?_, ?_, ?_⟩
  · intro herr
    refine ⟨handleMsg_parseErr _ herr, ?_⟩
    rw [handleMsg_parseErr _ herr]
    rfl
  · intro hdec hall
    exact ⟨(handleMsg_drops _ ev hdec hall).1,
      (handleMsg_drops _ ev hdec hall).2.1,
      (handleMsg_drops _ ev hdec hall).2.2.1⟩
  · intro hbenign
    exact unmEventFields_skip kvs zeroEvent hbenign

/-- Witness for C10 amended at a benign object and a non-object
message. -/
theorem C10_shape_mismatch_amended_witness :
    unmarshalEventMsg (InMsg.valid (JVal.obj [("foo", JVal.str "bar")]) "r10")
      = .ok zeroEvent
    ∧ addCalls
        (handleMsg (InMsg.valid (JVal.obj [("foo", JVal.str "bar")]) "r10"))
      = []
    ∧ emptyWarnCount
        (handleMsg (InMsg.valid (JVal.obj [("foo", JVal.str "bar")]) "r10"))
      = 1
    ∧ handleMsg (InMsg.valid (JVal.str "zzz") "r11")
      = [.log .msgParseInfo, .log (.msgParseData "r11")] := by
  refine ⟨?_, ?_, ?_, ?_⟩
  · exact (C10_shape_mismatch_amended (JVal.obj [("foo", JVal.str "bar")])
      "r10" false [] zeroEvent [("foo", JVal.str "bar")]).2.2.2
      (by
        intro kv hkv
        rw [List.mem_singleton] at hkv
        subst hkv
        exact ⟨rfl, rfl⟩)
  · exact ((C10_shape_mismatch_amended (JVal.obj [("foo", JVal.str "bar")])
      "r10" false [] zeroEvent []).2.2.1 rfl rfl).1
  · exact ((C10_shape_mismatch_amended (JVal.obj [("foo", JVal.str "bar")])
      "r10" false [] zeroEvent []).2.2.1 rfl rfl).2.1
  · exact ((C10_shape_mismatch_amended (JVal.str "zzz") "r11" false []
      zeroEvent []).2.1 rfl).1

end Fems
